import Mathlib

/-!
Verification of the `disk-marmitas-api` backend (`src/server.js`).

The server exposes four HTTP routes over a single document stored at a
fixed path (`configuracoes/menu`) in a remote document store:

* `GET /`                  — liveness message, no database access;
* `GET /api/menu`          — returns the stored document;
* `PUT /api/menu`          — replaces the whole document (requires `categories`);
* `PATCH /api/status-loja` — updates only the nested field `settings.isOpen`.

We embed JSON values, JavaScript truthiness, the document store (one
optional document plus a failure flag for external store errors), and each
route handler as a pure Lean function.  The handler result records the HTTP
response, the store state afterwards, and whether the store was invoked.
-/

/-- JSON values, as produced by the `body-parser` middleware and stored in
the document database.  Numbers are modelled as integers; none of the
routes inspects numeric values beyond truthiness. -/
inductive Json where
  | null : Json
  | bool (b : Bool) : Json
  | num (n : Int) : Json
  | str (s : String) : Json
  | arr (elems : List Json) : Json
  | obj (fields : List (String × Json)) : Json

/-- First-match lookup of a key in a JSON object's field list
(models JavaScript property access `o[k]`). -/
def lookupKey : List (String × Json) → String → Option Json
  | [], _ => none
  | (k0, v0) :: rest, k => if k0 = k then some v0 else lookupKey rest k

/-- Set (or insert) a key in a JSON object's field list, preserving the
positions of all other keys. -/
def setKey : List (String × Json) → String → Json → List (String × Json)
  | [], k, v => [(k, v)]
  | (k0, v0) :: rest, k, v =>
    if k0 = k then (k0, v) :: rest else (k0, v0) :: setKey rest k v

/-- JavaScript property access `value.k`: yields the field's value on an
object that has the key, and `undefined` (here `none`) otherwise. -/
def getField : Json → String → Option Json
  | Json.obj fields, k => lookupKey fields k
  | _, _ => none

/-- JavaScript truthiness of a JSON value: `null`, `false`, `0` and `""`
are falsy; every object and array is truthy. -/
def truthy : Json → Bool
  | Json.null => false
  | Json.bool b => b
  | Json.num n => n != 0
  | Json.str s => s != ""
  | Json.arr _ => true
  | Json.obj _ => true

/-- Truthiness of a possibly-`undefined` value (`undefined` is falsy). -/
def truthyOpt : Option Json → Bool
  | none => false
  | some v => truthy v

/-- `typeof v === 'boolean'` for a possibly-`undefined` value. -/
def isBoolVal : Option Json → Bool
  | some (Json.bool _) => true
  | _ => false

/-- Read a value at a dot-separated field path (`lookupPath d ["a","b"]`
reads `d.a.b`); `none` when any step is missing or not an object. -/
def lookupPath : Json → List String → Option Json
  | d, [] => some d
  | Json.obj fields, k :: ks =>
    match lookupKey fields k with
    | some v => lookupPath v ks
    | none => none
  | _, _ :: _ => none

/-- Firestore `update` with a dot-separated field path: sets exactly the
named nested field, keeping sibling fields, and creates (or overwrites a
non-map value with) intermediate maps as needed. -/
def setPath : Json → List String → Json → Json
  | _, [], v => v
  | Json.obj fields, k :: ks, v =>
    Json.obj (setKey fields k (setPath ((lookupKey fields k).getD (Json.obj [])) ks v))
  | _, k :: ks, v => Json.obj [(k, setPath (Json.obj []) ks v)]

/-- An HTTP response: status code and JSON body (the liveness route's
plain-text body is modelled as a JSON string). -/
structure Response where
  status : Nat
  body : Json

/-- Outcome of running one route handler: the response sent, the store's
document afterwards, and whether the store was invoked at all. -/
structure HandlerResult where
  resp : Response
  store : Option Json
  storeInvoked : Bool

/-- The error bodies `res.status(s).json({ erro: msg })` used by every
failure branch of the handlers. -/
def errBody (msg : String) : Json :=
  Json.obj [("erro", Json.str msg)]

/-- `GET /` (server.js lines 67–69): a fixed plain-text message,
independent of the database handle and document state; the store is never
invoked. -/
def rootHandler (db : Bool) (store : Option Json) : HandlerResult :=
  ⟨⟨200, Json.str "Backend Disk Marmitas está Online! 🚀"⟩, store, false⟩

/-- `GET /api/menu` (server.js lines 75–86).  `db` is whether a database
client is configured (`db` non-null), `store` the document at `DOC_PATH`
(`none` when absent), `fail` whether the store call raises. -/
def getMenu (db : Bool) (store : Option Json) (fail : Bool) : HandlerResult :=
  if !db then ⟨⟨500, errBody "Base de dados não conectada."⟩, store, false⟩
  else if fail then ⟨⟨500, errBody "Erro interno no servidor."⟩, store, true⟩
  else
    match store with
    | none => ⟨⟨404, errBody "Configuração não encontrada."⟩, store, true⟩
    | some d => ⟨⟨200, d⟩, store, true⟩

/-- `PUT /api/menu` (server.js lines 93–110): validates
`!novosDados || !novosDados.categories`, then `db.doc(DOC_PATH).set(body)`
replaces the whole document. -/
def putMenu (db : Bool) (store : Option Json) (body : Json) (fail : Bool) :
    HandlerResult :=
  if !db then ⟨⟨500, errBody "Base de dados não conectada."⟩, store, false⟩
  else if !(truthy body && truthyOpt (getField body "categories")) then
    ⟨⟨400, errBody "Dados inválidos. O objeto deve conter \"categories\"."⟩, store, false⟩
  else if fail then
    ⟨⟨500, errBody "Erro ao gravar dados na base de dados."⟩, store, true⟩
  else ⟨⟨200, Json.obj [("mensagem", Json.str "Menu atualizado com sucesso!")]⟩, some body, true⟩

/-- `PATCH /api/status-loja` (server.js lines 117–136): requires
`typeof isOpen === 'boolean'`, then
`db.doc(DOC_PATH).update({ 'settings.isOpen': isOpen })`.  A Firestore
`update` fails when the document does not exist, which the handler's
`catch` turns into a 500. -/
def patchStatus (db : Bool) (store : Option Json) (body : Json) (fail : Bool) :
    HandlerResult :=
  if !db then ⟨⟨500, errBody "Base de dados não conectada."⟩, store, false⟩
  else
    match getField body "isOpen" with
    | some (Json.bool b) =>
      if fail then ⟨⟨500, errBody "Erro ao atualizar estado."⟩, store, true⟩
      else
        match store with
        | none => ⟨⟨500, errBody "Erro ao atualizar estado."⟩, store, true⟩
        | some d =>
          ⟨⟨200, Json.obj [("mensagem",
              Json.str ("Loja " ++ (if b then "ABERTA" else "FECHADA") ++ " com sucesso.")),
              ("estado", Json.bool b)]⟩,
            some (setPath d ["settings", "isOpen"] (Json.bool b)), true⟩
    | _ => ⟨⟨400, errBody "O campo \x27isOpen\x27 deve ser booleano (true ou false)."⟩, store, false⟩

/-- A concrete stored document used to witness the PATCH theorems. -/
def sampleDoc : Json :=
  Json.obj [("categories", Json.arr [Json.str "Combo"]),
    ("settings", Json.obj [("isOpen", Json.bool false), ("tema", Json.str "claro")])]

/-- A concrete `PATCH /api/status-loja` body `{"isOpen": true}`. -/
def sampleBodyTrue : Json :=
  Json.obj [("isOpen", Json.bool true)]

/-- A body that has a field at all is a truthy object. -/
theorem truthy_of_getField_truthy (body : Json) (k : String)
    (h : truthyOpt (getField body k) = true) : truthy body = true := by
  cases body <;> simp [getField, truthyOpt, truthy] at h ⊢

/-- Looking up the key just set yields the value set. -/
theorem lookupKey_setKey_self (fields : List (String × Json)) (k : String) (v : Json) :
    lookupKey (setKey fields k v) k = some v := by
  induction fields with
  | nil => simp [setKey, lookupKey]
  | cons hd tl ih =>
    obtain ⟨k0, v0⟩ := hd
    by_cases hk : k0 = k
    · simp [setKey, lookupKey, hk]
    · simp [setKey, lookupKey, hk, ih]

/-- Setting one key leaves lookups of every other key unchanged. -/
theorem lookupKey_setKey_other (fields : List (String × Json)) (k j : String) (v : Json)
    (h : j ≠ k) : lookupKey (setKey fields k v) j = lookupKey fields j := by
  induction fields with
  | nil => simp [setKey, lookupKey, Ne.symm h]
  | cons hd tl ih =>
    obtain ⟨k0, v0⟩ := hd
    by_cases hk : k0 = k
    · subst hk
      simp [setKey, lookupKey, Ne.symm h]
    · by_cases hj : k0 = j
      · simp [setKey, lookupKey, hk, hj, h]
      · simp [setKey, lookupKey, hk, hj, ih]

/-- Frame property of `setPath`: writing at path `q` does not change the
value read at any path `p` that neither is a prefix of `q` nor extends
`q`. -/
theorem lookupPath_setPath_disjoint (q : List String) :
    ∀ (p : List String) (d v : Json), ¬ p <+: q → ¬ q <+: p →
      lookupPath (setPath d q v) p = lookupPath d p := by
  induction q with
  | nil =>
    intro p d v _ hq
    exact absurd ⟨p, rfl⟩ hq
  | cons k qs ih =>
    intro p d v hp hq
    match p with
    | [] => exact absurd ⟨k :: qs, rfl⟩ hp
    | j :: ps =>
      by_cases hjk : j = k
      · subst hjk
        have hps : ¬ ps <+: qs := by
          rintro ⟨t, ht⟩
          exact hp ⟨t, by rw [List.cons_append, ht]⟩
        have hqs : ¬ qs <+: ps := by
          rintro ⟨t, ht⟩
          exact hq ⟨t, by rw [List.cons_append, ht]⟩
        have hps0 : ps ≠ [] := by
          rintro rfl
          exact hps ⟨qs, rfl⟩
        cases d with
        | obj fields =>
          cases hu : lookupKey fields j with
          | some u =>
            simp [setPath, lookupPath, lookupKey_setKey_self, hu, ih ps u v hps hqs]
          | none =>
            obtain ⟨x, xs, rfl⟩ := List.exists_cons_of_ne_nil hps0
            simp [setPath, lookupPath, lookupKey_setKey_self, hu,
              ih (x :: xs) (Json.obj []) v hps hqs, lookupKey]
        | null =>
          obtain ⟨x, xs, rfl⟩ := List.exists_cons_of_ne_nil hps0
          simp [setPath, lookupPath, lookupKey,
            ih (x :: xs) (Json.obj []) v hps hqs]
        | bool b =>
          obtain ⟨x, xs, rfl⟩ := List.exists_cons_of_ne_nil hps0
          simp [setPath, lookupPath, lookupKey,
            ih (x :: xs) (Json.obj []) v hps hqs]
        | num n =>
          obtain ⟨x, xs, rfl⟩ := List.exists_cons_of_ne_nil hps0
          simp [setPath, lookupPath, lookupKey,
            ih (x :: xs) (Json.obj []) v hps hqs]
        | str s =>
          obtain ⟨x, xs, rfl⟩ := List.exists_cons_of_ne_nil hps0
          simp [setPath, lookupPath, lookupKey,
            ih (x :: xs) (Json.obj []) v hps hqs]
        | arr elems =>
          obtain ⟨x, xs, rfl⟩ := List.exists_cons_of_ne_nil hps0
          simp [setPath, lookupPath, lookupKey,
            ih (x :: xs) (Json.obj []) v hps hqs]
      · cases d with
        | obj fields =>
          simp [setPath, lookupPath, lookupKey_setKey_other fields k j _ hjk]
        | null => simp [setPath, lookupPath, lookupKey, Ne.symm hjk]
        | bool b => simp [setPath, lookupPath, lookupKey, Ne.symm hjk]
        | num n => simp [setPath, lookupPath, lookupKey, Ne.symm hjk]
        | str s => simp [setPath, lookupPath, lookupKey, Ne.symm hjk]
        | arr elems => simp [setPath, lookupPath, lookupKey, Ne.symm hjk]

/-- C1 counterexample: the body `{"categories": false}` contains a
`categories` field, the client is configured and the store would succeed,
yet `PUT /api/menu` answers 400 (not 200) because the handler tests the
field's truthiness, not its presence. -/
theorem put_roundtrip_counterexample :
    getField (Json.obj [("categories", Json.bool false)]) "categories" =
      some (Json.bool false) ∧
    (putMenu true (some (Json.obj [])) (Json.obj [("categories", Json.bool false)])
        false).resp.status ≠ 200 ∧
    (putMenu true (some (Json.obj [])) (Json.obj [("categories", Json.bool false)])
        false).resp.status = 400 :=
  ⟨rfl, by decide, rfl⟩

/-- C1 (amended): for every body whose `categories` field is truthy, with a
configured client and a succeeding store, `PUT /api/menu` answers 200 and a
subsequent `GET /api/menu` returns exactly that payload. -/
theorem put_then_get_roundtrip (store : Option Json) (body : Json)
    (hc : truthyOpt (getField body "categories") = true) :
    (putMenu true store body false).resp.status = 200 ∧
    getMenu true (putMenu true store body false).store false =
      ⟨⟨200, body⟩, some body, true⟩ := by
  have hb := truthy_of_getField_truthy body "categories" hc
  simp [putMenu, getMenu, hb, hc]

/-- Witness for C1's theorem at the payload `{"categories": ["Combo"]}`
over an initially empty document. -/
theorem put_then_get_roundtrip_witness :
    (putMenu true (some (Json.obj [])) (Json.obj [("categories", Json.arr [Json.str "Combo"])])
        false).resp.status = 200 ∧
    getMenu true (putMenu true (some (Json.obj []))
        (Json.obj [("categories", Json.arr [Json.str "Combo"])]) false).store false =
      ⟨⟨200, Json.obj [("categories", Json.arr [Json.str "Combo"])]⟩,
        some (Json.obj [("categories", Json.arr [Json.str "Combo"])]), true⟩ :=
  put_then_get_roundtrip (some (Json.obj []))
    (Json.obj [("categories", Json.arr [Json.str "Combo"])]) rfl

/-- C2: with a configured client, every `PUT /api/menu` body lacking a
`categories` field is answered 400, the store is never invoked, and the
stored document is unchanged. -/
theorem put_missing_categories_rejected (store : Option Json) (body : Json) (fail : Bool)
    (h : getField body "categories" = none) :
    (putMenu true store body fail).resp.status = 400 ∧
    (putMenu true store body fail).storeInvoked = false ∧
    (putMenu true store body fail).store = store := by
  simp [putMenu, h, truthyOpt]

/-- Witness for C2's theorem at the empty body `{}`. -/
theorem put_missing_categories_rejected_witness :
    (putMenu true (some sampleDoc) (Json.obj []) false).resp.status = 400 ∧
    (putMenu true (some sampleDoc) (Json.obj []) false).storeInvoked = false ∧
    (putMenu true (some sampleDoc) (Json.obj []) false).store = some sampleDoc :=
  put_missing_categories_rejected (some sampleDoc) (Json.obj []) false rfl

/-- C3: a successful `PATCH /api/status-loja` with boolean `isOpen` answers
200 and replaces the stored document by `setPath doc ["settings","isOpen"]`,
which leaves the value at every field path disjoint from
`settings.isOpen` unchanged (field-level isolation). -/
theorem patch_frame (doc body : Json) (b : Bool)
    (h : getField body "isOpen" = some (Json.bool b)) :
    (patchStatus true (some doc) body false).resp.status = 200 ∧
    (patchStatus true (some doc) body false).store =
      some (setPath doc ["settings", "isOpen"] (Json.bool b)) ∧
    ∀ p : List String, ¬ p <+: ["settings", "isOpen"] → ¬ ["settings", "isOpen"] <+: p →
      lookupPath (setPath doc ["settings", "isOpen"] (Json.bool b)) p = lookupPath doc p := by
  refine ⟨by simp [patchStatus, h], by simp [patchStatus, h], fun p hp hq => ?_⟩
  exact lookupPath_setPath_disjoint ["settings", "isOpen"] p doc (Json.bool b) hp hq

/-- Witness for C3's theorem: patching `{"isOpen": true}` over a document
with a menu and a sibling setting. -/
theorem patch_frame_witness :
    (patchStatus true (some sampleDoc) sampleBodyTrue false).resp.status = 200 ∧
    (patchStatus true (some sampleDoc) sampleBodyTrue false).store =
      some (setPath sampleDoc ["settings", "isOpen"] (Json.bool true)) ∧
    ∀ p : List String, ¬ p <+: ["settings", "isOpen"] → ¬ ["settings", "isOpen"] <+: p →
      lookupPath (setPath sampleDoc ["settings", "isOpen"] (Json.bool true)) p =
        lookupPath sampleDoc p :=
  patch_frame sampleDoc sampleBodyTrue true rfl

/-- C4: with no configured database client, each of the three
database-backed routes answers 500 with the connection-error body, keeps
the stored document unchanged, and never invokes the store. -/
theorem no_db_all_routes_500 (store : Option Json) (body : Json) (fail : Bool) :
    getMenu false store fail = ⟨⟨500, errBody "Base de dados não conectada."⟩, store, false⟩ ∧
    putMenu false store body fail =
      ⟨⟨500, errBody "Base de dados não conectada."⟩, store, false⟩ ∧
    patchStatus false store body fail =
      ⟨⟨500, errBody "Base de dados não conectada."⟩, store, false⟩ :=
  ⟨rfl, rfl, rfl⟩

/-- C5: `GET /api/menu` answers 500 with an error body when no client is
configured (without invoking the store), 404 with an error body when the
document is absent, 500 on a store failure, and 200 with the raw document
on success — whatever the document contains. -/
theorem get_menu_cases :
    (∀ (store : Option Json) (fail : Bool),
      (getMenu false store fail).resp = ⟨500, errBody "Base de dados não conectada."⟩ ∧
      (getMenu false store fail).storeInvoked = false) ∧
    (getMenu true none false).resp = ⟨404, errBody "Configuração não encontrada."⟩ ∧
    (∀ store : Option Json,
      (getMenu true store true).resp = ⟨500, errBody "Erro interno no servidor."⟩) ∧
    (∀ d : Json, (getMenu true (some d) false).resp = ⟨200, d⟩) :=
  ⟨fun _ _ => ⟨rfl, rfl⟩, rfl, fun _ => rfl, fun _ => rfl⟩

/-- C6: with a configured client, every `PATCH /api/status-loja` body whose
`isOpen` value is not strictly boolean (absent, string, number, …) is
answered 400, the store is never invoked, and the stored document is
unchanged. -/
theorem patch_non_boolean_rejected (store : Option Json) (body : Json) (fail : Bool)
    (h : isBoolVal (getField body "isOpen") = false) :
    (patchStatus true store body fail).resp.status = 400 ∧
    (patchStatus true store body fail).storeInvoked = false ∧
    (patchStatus true store body fail).store = store := by
  cases ho : getField body "isOpen" with
  | none => simp [patchStatus, ho]
  | some v => cases v <;> simp_all [patchStatus, isBoolVal]

/-- Witness for C6's theorem at the body `{"isOpen": "true"}`. -/
theorem patch_non_boolean_rejected_witness :
    (patchStatus true (some sampleDoc) (Json.obj [("isOpen", Json.str "true")])
        false).resp.status = 400 ∧
    (patchStatus true (some sampleDoc) (Json.obj [("isOpen", Json.str "true")])
        false).storeInvoked = false ∧
    (patchStatus true (some sampleDoc) (Json.obj [("isOpen", Json.str "true")])
        false).store = some sampleDoc :=
  patch_non_boolean_rejected (some sampleDoc) (Json.obj [("isOpen", Json.str "true")])
    false rfl

/-- C7: a successful `PATCH /api/status-loja` answers 200 with a body whose
`estado` echoes the request's boolean and whose `mensagem` names the new
state exactly. -/
theorem patch_success_message (doc body : Json) (b : Bool)
    (h : getField body "isOpen" = some (Json.bool b)) :
    (patchStatus true (some doc) body false).resp.status = 200 ∧
    getField (patchStatus true (some doc) body false).resp.body "estado" =
      some (Json.bool b) ∧
    getField (patchStatus true (some doc) body false).resp.body "mensagem" =
      some (Json.str
        (if b then "Loja ABERTA com sucesso." else "Loja FECHADA com sucesso.")) := by
  have hr : (patchStatus true (some doc) body false).resp =
      ⟨200, Json.obj [("mensagem",
          Json.str ("Loja " ++ (if b then "ABERTA" else "FECHADA") ++ " com sucesso.")),
        ("estado", Json.bool b)]⟩ := by
    simp [patchStatus, h]
  rw [hr]
  refine ⟨rfl, rfl, ?_⟩
  cases b <;> rfl

/-- Witness for C7's theorem at the body `{"isOpen": true}`. -/
theorem patch_success_message_witness :
    (patchStatus true (some sampleDoc) sampleBodyTrue false).resp.status = 200 ∧
    getField (patchStatus true (some sampleDoc) sampleBodyTrue false).resp.body "estado" =
      some (Json.bool true) ∧
    getField (patchStatus true (some sampleDoc) sampleBodyTrue false).resp.body "mensagem" =
      some (Json.str
        (if true then "Loja ABERTA com sucesso." else "Loja FECHADA com sucesso.")) :=
  patch_success_message sampleDoc sampleBodyTrue true rfl

/-- C8: `GET /` answers 200 with the fixed online message for every
database configuration and document state, leaves the store untouched, and
never invokes it. -/
theorem root_route_fixed (db : Bool) (store : Option Json) :
    rootHandler db store =
      ⟨⟨200, Json.str "Backend Disk Marmitas está Online! 🚀"⟩, store, false⟩ :=
  rfl

/-- C9: with a configured client, a `PUT /api/menu` body whose `categories`
field is present but falsy is answered 400, the store is never invoked,
and the stored document is unchanged. -/
theorem put_falsy_categories_rejected (store : Option Json) (body : Json) (fail : Bool)
    (v : Json) (h : getField body "categories" = some v) (hv : truthy v = false) :
    (putMenu true store body fail).resp.status = 400 ∧
    (putMenu true store body fail).storeInvoked = false ∧
    (putMenu true store body fail).store = store := by
  simp [putMenu, h, truthyOpt, hv]

/-- Witness for C9's theorem at the body `{"categories": false}`. -/
theorem put_falsy_categories_rejected_witness :
    (putMenu true (some sampleDoc) (Json.obj [("categories", Json.bool false)])
        false).resp.status = 400 ∧
    (putMenu true (some sampleDoc) (Json.obj [("categories", Json.bool false)])
        false).storeInvoked = false ∧
    (putMenu true (some sampleDoc) (Json.obj [("categories", Json.bool false)])
        false).store = some sampleDoc :=
  put_falsy_categories_rejected (some sampleDoc)
    (Json.obj [("categories", Json.bool false)]) false (Json.bool false) rfl rfl

/-- C10: a successful `PATCH /api/status-loja` writes exactly the single
field `settings.isOpen`; every other field of the request body is ignored:
any body with the same `isOpen` value produces the identical outcome. -/
theorem patch_writes_only_isOpen (doc body : Json) (b : Bool)
    (h : getField body "isOpen" = some (Json.bool b)) :
    (patchStatus true (some doc) body false).store =
      some (setPath doc ["settings", "isOpen"] (Json.bool b)) ∧
    ∀ body2 : Json, getField body2 "isOpen" = some (Json.bool b) →
      patchStatus true (some doc) body2 false = patchStatus true (some doc) body false := by
  exact ⟨by simp [patchStatus, h], fun body2 h2 => by simp [patchStatus, h, h2]⟩

/-- Witness for C10's theorem at the body `{"isOpen": true}`. -/
theorem patch_writes_only_isOpen_witness :
    (patchStatus true (some sampleDoc) sampleBodyTrue false).store =
      some (setPath sampleDoc ["settings", "isOpen"] (Json.bool true)) ∧
    ∀ body2 : Json, getField body2 "isOpen" = some (Json.bool true) →
      patchStatus true (some sampleDoc) body2 false =
        patchStatus true (some sampleDoc) sampleBodyTrue false :=
  patch_writes_only_isOpen sampleDoc sampleBodyTrue true rfl
